import Mathlib

/-!
Shallow embedding of the package-tracker-aggregator backend
(`src/backend/api`): data model (`models.py`), carrier adapters
(`carriers/usps.py`, `carriers/ups.py`, `carriers/fedex.py`, plus the
DHL and Amazon adapters that the registry imports), the carrier registry
and detector (`carriers/__init__.py`), and the tracking orchestrator
(`tracker.py`).  Machine time (`datetime.utcnow()`) is modelled as a
`Nat` instant passed in explicitly; network I/O performed by an
adapter's `track` is modelled by explicit oracle arguments.
-/

/-- `CarrierType` enum from `models.py`. -/
inductive CarrierType where
  | usps
  | ups
  | fedex
  | dhl
  | amazon
  | ontrac
  | lasership
  | unknown
deriving DecidableEq, Repr

/-- The `.value` string of each `CarrierType` member (`models.py`). -/
def CarrierType.value : CarrierType → String
  | .usps => "usps"
  | .ups => "ups"
  | .fedex => "fedex"
  | .dhl => "dhl"
  | .amazon => "amazon"
  | .ontrac => "ontrac"
  | .lasership => "lasership"
  | .unknown => "unknown"

/-- `PackageStatus` enum from `models.py`. -/
inductive PackageStatus where
  | pre_transit
  | in_transit
  | out_for_delivery
  | delivered
  | exception
  | returned
  | unknown
deriving DecidableEq, Repr

/-- `TrackingEvent` model from `models.py`; `datetime` is modelled as `Nat`. -/
structure TrackingEvent where
  timestamp : Nat
  status : String
  location : Option String := none
  description : String
  raw_status : Option String := none
deriving DecidableEq, Repr

/-- `Package` model from `models.py`. -/
structure Package where
  id : String
  tracking_number : String
  carrier : CarrierType
  carrier_detected : Bool := false
  nickname : Option String := none
  status : PackageStatus
  estimated_delivery : Option Nat := none
  events : List TrackingEvent := []
  last_updated : Nat
  created_at : Nat
  archived : Bool := false
  delivered_at : Option Nat := none
  source : Option String := none
deriving DecidableEq, Repr

/-- `TrackingResponse` model from `models.py`. -/
structure TrackingResponse where
  success : Bool
  package : Option Package := none
  error : Option String := none
  cached : Bool := false
deriving DecidableEq, Repr

/-- Python `str.upper()` restricted to the ASCII letters that occur in
tracking numbers, as `Char.toUpper` maps exactly the ASCII range. -/
def pyUpper (s : String) : String :=
  ⟨s.data.map Char.toUpper⟩

/-- Python `str.lower()` (ASCII range, via `Char.toLower`). -/
def pyLower (s : String) : String :=
  ⟨s.data.map Char.toLower⟩

/-- Python `str.replace(c, "")`: delete every occurrence of character `c`. -/
def removeChar (c : Char) (s : String) : String :=
  ⟨s.data.filter (fun d => d ≠ c)⟩

/-- Python `str.replace(" ", "_")`. -/
def spacesToUnderscores (s : String) : String :=
  ⟨s.data.map (fun d => if d = ' ' then '_' else d)⟩

/-- The normalization used by `BaseCarrier.validate_tracking_number` and
`normalize_tracking_number` in `carriers/base.py`:
`tracking_number.upper().replace(" ", "").replace("-", "")`. -/
def cleanTracking (s : String) : String :=
  removeChar '-' (removeChar ' ' (pyUpper s))

/-- Regex character class `[0-9]`. -/
def isDigitChar (c : Char) : Bool :=
  '0' ≤ c && c ≤ '9'

/-- Regex character class `[A-Z]`. -/
def isUpperAlpha (c : Char) : Bool :=
  'A' ≤ c && c ≤ 'Z'

/-- Regex character class `[A-Z0-9]`. -/
def isUpperAlnum (c : Char) : Bool :=
  isUpperAlpha c || isDigitChar c

/-- Anchored regex of the shape `^(p1|p2|...)[0-9]{n}$` where each
alternative is two characters: the string is one of the two-character
prefixes followed by exactly `n` digits. -/
def pairThenDigits (pairs : List (Char × Char)) (n : Nat) (l : List Char) : Bool :=
  match l with
  | a :: b :: rest => pairs.contains (a, b) && rest.length = n && rest.all isDigitChar
  | _ => false

/-- Anchored regex `^[0-9]{n}$`. -/
def exactlyDigits (n : Nat) (l : List Char) : Bool :=
  l.length = n && l.all isDigitChar

/-- A tracking-number pattern is a predicate on the cleaned character list
(the embedding of one regex from a carrier's `tracking_patterns`). -/
abbrev TrackingPattern := List Char → Bool

/-- Embedding of the abstract base class `BaseCarrier` in
`carriers/base.py`: each concrete carrier supplies its pattern list and
its `parse_status` table lookup. -/
structure BaseCarrier where
  carrier_type : CarrierType
  tracking_patterns : List TrackingPattern
  parse_status : String → PackageStatus

/-- `BaseCarrier.validate_tracking_number` from `carriers/base.py`:
clean the input, then test the ordered pattern list (a loop returning
`True` on the first `re.match`, i.e. `any`). -/
def BaseCarrier.validate_tracking_number (c : BaseCarrier) (tracking_number : String) : Bool :=
  let cleaned := cleanTracking tracking_number
  c.tracking_patterns.any (fun p => p cleaned.data)

namespace USPSCarrier

/-- USPS pattern `^(94|93|92|95|96)[0-9]{20}$` (Domestic). -/
def pat_domestic : TrackingPattern :=
  pairThenDigits [('9', '4'), ('9', '3'), ('9', '2'), ('9', '5'), ('9', '6')] 20

/-- USPS pattern `^[A-Z]{2}[0-9]{9}[A-Z]{2}$` (International). -/
def pat_international : TrackingPattern := fun l =>
  match l with
  | a :: b :: rest =>
    isUpperAlpha a && isUpperAlpha b &&
    (rest.take 9).length = 9 && (rest.take 9).all isDigitChar &&
    (match rest.drop 9 with
     | [c, d] => isUpperAlpha c && isUpperAlpha d
     | _ => false)
  | _ => false

/-- USPS pattern `^(70|14|23|03)[0-9]{14}$` (Priority Mail Express). -/
def pat_express : TrackingPattern :=
  pairThenDigits [('7', '0'), ('1', '4'), ('2', '3'), ('0', '3')] 14

/-- USPS pattern `^(M0|82)[0-9]{8}$` (Signature Confirmation). -/
def pat_signature : TrackingPattern :=
  pairThenDigits [('M', '0'), ('8', '2')] 8

/-- `USPSCarrier.parse_status` status map (`carriers/usps.py`). -/
def status_map : List (String × PackageStatus) :=
  [("pre_transit", .pre_transit),
   ("transit", .in_transit),
   ("delivered", .delivered),
   ("out_for_delivery", .out_for_delivery),
   ("exception", .exception),
   ("returned", .returned)]

/-- `USPSCarrier.parse_status`: key is `raw_status.lower().replace(' ', '_')`,
default `PackageStatus.UNKNOWN`. -/
def parse_status (raw_status : String) : PackageStatus :=
  let raw_lower := spacesToUnderscores (pyLower raw_status)
  match status_map.find? (fun p => p.1 = raw_lower) with
  | some p => p.2
  | none => .unknown

end USPSCarrier

namespace UPSCarrier

/-- UPS pattern `^1Z[A-Z0-9]{16}$` (Standard UPS). -/
def pat_standard : TrackingPattern := fun l =>
  match l with
  | '1' :: 'Z' :: rest => rest.length = 16 && rest.all isUpperAlnum
  | _ => false

/-- UPS pattern `^[0-9]{9}$` (UPS Mail Innovations). -/
def pat_mail_innovations : TrackingPattern := exactlyDigits 9

/-- UPS pattern `^[A-Z]{2}[0-9]{9}US$` (SurePost). -/
def pat_surepost : TrackingPattern := fun l =>
  match l with
  | a :: b :: rest =>
    isUpperAlpha a && isUpperAlpha b &&
    (rest.take 9).length = 9 && (rest.take 9).all isDigitChar &&
    (match rest.drop 9 with
     | ['U', 'S'] => true
     | _ => false)
  | _ => false

/-- `UPSCarrier.parse_status` status map (`carriers/ups.py`).  Note the
key `outforDelivery` contains an upper-case letter in the source. -/
def status_map : List (String × PackageStatus) :=
  [("pickup", .pre_transit),
   ("intransit", .in_transit),
   ("outforDelivery", .out_for_delivery),
   ("delivered", .delivered),
   ("exception", .exception),
   ("returned", .returned)]

/-- `UPSCarrier.parse_status`: key is `raw_status.lower()` (no space
normalization), default `PackageStatus.UNKNOWN`. -/
def parse_status (raw_status : String) : PackageStatus :=
  match status_map.find? (fun p => p.1 = pyLower raw_status) with
  | some p => p.2
  | none => .unknown

end UPSCarrier

namespace FedExCarrier

/-- FedEx patterns `^[0-9]{12}$`, `^[0-9]{15}$`, `^[0-9]{20}$`, `^[0-9]{34}$`. -/
def patterns : List TrackingPattern :=
  [exactlyDigits 12, exactlyDigits 15, exactlyDigits 20, exactlyDigits 34]

/-- `FedExCarrier.parse_status` status map (`carriers/fedex.py`). -/
def status_map : List (String × PackageStatus) :=
  [("picked_up", .pre_transit),
   ("in_transit", .in_transit),
   ("out_for_delivery", .out_for_delivery),
   ("delivered", .delivered),
   ("exception", .exception),
   ("shipment_canceled", .exception)]

/-- `FedExCarrier.parse_status`: key is
`raw_status.lower().replace(" ", "_")`, default `PackageStatus.UNKNOWN`. -/
def parse_status (raw_status : String) : PackageStatus :=
  let key := spacesToUnderscores (pyLower raw_status)
  match status_map.find? (fun p => p.1 = key) with
  | some p => p.2
  | none => .unknown

end FedExCarrier

namespace DHLCarrier

/-- Modelled from the spec: `src/backend/api/carriers/dhl.py` is absent
from the sources although `carriers/__init__.py` imports and registers
`DHLCarrier`.  The spec prescribes `validate` as pattern matching over
the cleaned input; DHL express waybills are ten digits, and the spec's
example `detect("not-a-real-number") = UNKNOWN` requires this validator
to reject non-numeric strings. -/
def pat_express : TrackingPattern := exactlyDigits 10

/-- Modelled from the spec: `parse_status` is a pure vocabulary lookup
with case/space-insensitive key normalization and default UNKNOWN. -/
def status_map : List (String × PackageStatus) :=
  [("pretransit", .pre_transit),
   ("transit", .in_transit),
   ("delivered", .delivered),
   ("exception", .exception)]

/-- Modelled from the spec: case/space-insensitive lookup, default UNKNOWN. -/
def parse_status (raw_status : String) : PackageStatus :=
  let key := removeChar ' ' (pyLower raw_status)
  match status_map.find? (fun p => p.1 = key) with
  | some p => p.2
  | none => .unknown

end DHLCarrier

namespace AmazonCarrier

/-- Modelled from the spec: `src/backend/api/carriers/amazon.py` is
absent from the sources although `carriers/__init__.py` imports and
registers `AmazonCarrier`.  Amazon Logistics tracking ids are `TBA`
followed by twelve digits; the spec's example
`detect("not-a-real-number") = UNKNOWN` requires this validator to
reject that string. -/
def pat_tba : TrackingPattern := fun l =>
  match l with
  | 'T' :: 'B' :: 'A' :: rest => rest.length = 12 && rest.all isDigitChar
  | _ => false

/-- Modelled from the spec: `parse_status` vocabulary table. -/
def status_map : List (String × PackageStatus) :=
  [("intransit", .in_transit),
   ("outfordelivery", .out_for_delivery),
   ("delivered", .delivered)]

/-- Modelled from the spec: case/space-insensitive lookup, default UNKNOWN. -/
def parse_status (raw_status : String) : PackageStatus :=
  let key := removeChar ' ' (pyLower raw_status)
  match status_map.find? (fun p => p.1 = key) with
  | some p => p.2
  | none => .unknown

end AmazonCarrier

/-- The `USPSCarrier` instance registered in `carriers/__init__.py`. -/
def uspsCarrier : BaseCarrier :=
  { carrier_type := .usps,
    tracking_patterns :=
      [USPSCarrier.pat_domestic, USPSCarrier.pat_international,
       USPSCarrier.pat_express, USPSCarrier.pat_signature],
    parse_status := USPSCarrier.parse_status }

/-- The `UPSCarrier` instance registered in `carriers/__init__.py`. -/
def upsCarrier : BaseCarrier :=
  { carrier_type := .ups,
    tracking_patterns :=
      [UPSCarrier.pat_standard, UPSCarrier.pat_mail_innovations,
       UPSCarrier.pat_surepost],
    parse_status := UPSCarrier.parse_status }

/-- The `FedExCarrier` instance registered in `carriers/__init__.py`. -/
def fedexCarrier : BaseCarrier :=
  { carrier_type := .fedex,
    tracking_patterns := FedExCarrier.patterns,
    parse_status := FedExCarrier.parse_status }

/-- The `DHLCarrier` instance registered in `carriers/__init__.py`
(adapter body modelled from the spec, see `DHLCarrier`). -/
def dhlCarrier : BaseCarrier :=
  { carrier_type := .dhl,
    tracking_patterns := [DHLCarrier.pat_express],
    parse_status := DHLCarrier.parse_status }

/-- The `AmazonCarrier` instance registered in `carriers/__init__.py`
(adapter body modelled from the spec, see `AmazonCarrier`). -/
def amazonCarrier : BaseCarrier :=
  { carrier_type := .amazon,
    tracking_patterns := [AmazonCarrier.pat_tba],
    parse_status := AmazonCarrier.parse_status }

/-- The `CARRIERS` registry dict of `carriers/__init__.py`, in its
insertion order (Python dicts iterate in insertion order). -/
def CARRIERS : List (CarrierType × BaseCarrier) :=
  [(.usps, uspsCarrier),
   (.ups, upsCarrier),
   (.fedex, fedexCarrier),
   (.dhl, dhlCarrier),
   (.amazon, amazonCarrier)]

/-- `detect_carrier` from `carriers/__init__.py`: iterate the registry
in order, return the first carrier whose validation succeeds, else
UNKNOWN. -/
def detect_carrier (tracking_number : String) : CarrierType :=
  match CARRIERS.find? (fun p => p.2.validate_tracking_number tracking_number) with
  | some p => p.1
  | none => .unknown

/-- `get_carrier` from `carriers/__init__.py`: `CARRIERS.get(carrier_type)`. -/
def get_carrier (carrier_type : CarrierType) : Option BaseCarrier :=
  (CARRIERS.find? (fun p => p.1 = carrier_type)).map (fun p => p.2)

/-- The fixed registration order of the registry. -/
def registrationOrder : List CarrierType :=
  [.usps, .ups, .fedex, .dhl, .amazon]

/-- Position of a carrier in the registration order (5 for unregistered). -/
def orderIndex : CarrierType → Nat
  | .usps => 0
  | .ups => 1
  | .fedex => 2
  | .dhl => 3
  | .amazon => 4
  | _ => 5

/-- The validator the registry applies for a given carrier type (false
for types without a registered adapter). -/
def validateOf (ct : CarrierType) (tn : String) : Bool :=
  match get_carrier ct with
  | some c => c.validate_tracking_number tn
  | none => false

/-- Insert one event into a list already sorted descending by timestamp,
keeping later-inserted equal-timestamp events after earlier ones (the
stability of Python `sorted(..., reverse=True)`). -/
def insertDesc (e : TrackingEvent) : List TrackingEvent → List TrackingEvent
  | [] => [e]
  | x :: xs => if e.timestamp ≤ x.timestamp then x :: insertDesc e xs else e :: x :: xs

/-- Embedding of `sorted(events, key=lambda x: x.timestamp, reverse=True)`
used by every `_parse_response`. -/
def sortEventsDesc : List TrackingEvent → List TrackingEvent
  | [] => []
  | e :: es => insertDesc e (sortEventsDesc es)

/-- Boolean check of the event-ordering invariant:
`events[i].timestamp >= events[i+1].timestamp` for every adjacent pair. -/
def sortedDescB : List TrackingEvent → Bool
  | [] => true
  | [_] => true
  | a :: b :: rest => (b.timestamp ≤ a.timestamp) && sortedDescB (b :: rest)

namespace USPSCarrier

/-- `USPSCarrier._parse_response` (`carriers/usps.py`).  The XML
decoding mechanics are external collaborators (spec §1); the decoded
`TrackInfo` node is the argument: `none` when the node is missing or a
parse exception occurred (the `try/except` returns `None`), otherwise
the decoded event list together with the
`StatusCategory`-or-`Status` text. -/
def parse_response (track_info : Option (List TrackingEvent × String))
    (tracking_number : String) (now : Nat) : Option Package :=
  match track_info with
  | none => none
  | some (events, statusText) =>
    some
      { id := "usps_" ++ tracking_number,
        tracking_number := tracking_number,
        carrier := .usps,
        carrier_detected := true,
        status := parse_status statusText,
        estimated_delivery := none,
        events := sortEventsDesc events,
        last_updated := now,
        created_at := now }

/-- `USPSCarrier._mock_track` (`carriers/usps.py`). -/
def mock_track (tracking_number : String) (now : Nat) : Package :=
  { id := "usps_" ++ tracking_number,
    tracking_number := tracking_number,
    carrier := .usps,
    carrier_detected := true,
    status := .in_transit,
    events :=
      [{ timestamp := now,
         status := "In Transit",
         location := some "Memphis, TN",
         description := "Arrived at Regional Facility",
         raw_status := some "In Transit" }],
    last_updated := now,
    created_at := now }

/-- `USPSCarrier.track` (`carriers/usps.py`): with no
`USPS_API_USER_ID` configured, fall back to `_mock_track`; otherwise
issue the HTTP request (modelled by `http_status` and the decoded
`track_info`) and parse the response, with non-200 yielding `None`. -/
def track (user_id : Option String) (http_status : Nat)
    (track_info : Option (List TrackingEvent × String))
    (tracking_number : String) (now : Nat) : Option Package :=
  match user_id with
  | none => some (mock_track tracking_number now)
  | some _ =>
    if http_status ≠ 200 then none
    else parse_response track_info tracking_number now

end USPSCarrier

namespace UPSCarrier

/-- `UPSCarrier._parse_response` (`carriers/ups.py`).  JSON decoding is
external; the argument is `none` when a parse exception occurred,
otherwise the decoded activity list and the `currentStatus` string. -/
def parse_response (decoded : Option (List TrackingEvent × String))
    (tracking_number : String) (now : Nat) : Option Package :=
  match decoded with
  | none => none
  | some (events, current_status) =>
    some
      { id := "ups_" ++ tracking_number,
        tracking_number := tracking_number,
        carrier := .ups,
        carrier_detected := true,
        status := parse_status current_status,
        events := sortEventsDesc events,
        last_updated := now,
        created_at := now }

/-- `UPSCarrier._mock_track` (`carriers/ups.py`). -/
def mock_track (tracking_number : String) (now : Nat) : Package :=
  { id := "ups_" ++ tracking_number,
    tracking_number := tracking_number,
    carrier := .ups,
    carrier_detected := true,
    status := .out_for_delivery,
    events :=
      [{ timestamp := now,
         status := "Out for Delivery",
         location := some "Local Facility",
         description := "Out for delivery today by 9:00 PM",
         raw_status := some "OutForDelivery" }],
    last_updated := now,
    created_at := now }

/-- `UPSCarrier.track` (`carriers/ups.py`): with no `UPS_CLIENT_ID`,
fall back to `_mock_track`; otherwise fetch a token, issue the tracking
request and parse, with non-200 yielding `None`. -/
def track (client_id : Option String) (http_status : Nat)
    (decoded : Option (List TrackingEvent × String))
    (tracking_number : String) (now : Nat) : Option Package :=
  match client_id with
  | none => some (mock_track tracking_number now)
  | some _ =>
    if http_status ≠ 200 then none
    else parse_response decoded tracking_number now

end UPSCarrier

namespace FedExCarrier

/-- `FedExCarrier._parse_response` (`carriers/fedex.py`).  JSON decoding
is external; the argument is `none` when a parse exception occurred,
otherwise the decoded scan-event list and the
`latestStatusDetail.statusByLocale` string. -/
def parse_response (decoded : Option (List TrackingEvent × String))
    (tracking_number : String) (now : Nat) : Option Package :=
  match decoded with
  | none => none
  | some (events, status_code) =>
    some
      { id := "fedex_" ++ tracking_number,
        tracking_number := tracking_number,
        carrier := .fedex,
        carrier_detected := true,
        status := parse_status status_code,
        events := sortEventsDesc events,
        last_updated := now,
        created_at := now }

/-- `FedExCarrier._mock_track` (`carriers/fedex.py`). -/
def mock_track (tracking_number : String) (now : Nat) : Package :=
  { id := "fedex_" ++ tracking_number,
    tracking_number := tracking_number,
    carrier := .fedex,
    carrier_detected := true,
    status := .delivered,
    delivered_at := some now,
    events :=
      [{ timestamp := now,
         status := "Delivered",
         location := some "Front Porch",
         description := "Left at front porch. Signature not required.",
         raw_status := some "Delivered" }],
    last_updated := now,
    created_at := now }

/-- `FedExCarrier.track` (`carriers/fedex.py`): with no
`FEDEX_CLIENT_ID`, fall back to `_mock_track`; otherwise fetch a token,
post the tracking request and parse, with non-200 yielding `None`. -/
def track (client_id : Option String) (http_status : Nat)
    (decoded : Option (List TrackingEvent × String))
    (tracking_number : String) (now : Nat) : Option Package :=
  match client_id with
  | none => some (mock_track tracking_number now)
  | some _ =>
    if http_status ≠ 200 then none
    else parse_response decoded tracking_number now

end FedExCarrier

namespace DHLCarrier

/-- Modelled from the spec: without credentials, `track` must return a
clearly-labeled synthetic Package with a fixed representative status and
one event. -/
def mock_track (tracking_number : String) (now : Nat) : Package :=
  { id := "dhl_" ++ tracking_number,
    tracking_number := tracking_number,
    carrier := .dhl,
    carrier_detected := true,
    status := .in_transit,
    events :=
      [{ timestamp := now,
         status := "In Transit",
         location := some "Leipzig Hub",
         description := "Shipment in transit",
         raw_status := some "transit" }],
    last_updated := now,
    created_at := now }

/-- Modelled from the spec: parse the decoded document into a Package
with events sorted descending by timestamp; parse failure gives `None`. -/
def parse_response (decoded : Option (List TrackingEvent × String))
    (tracking_number : String) (now : Nat) : Option Package :=
  match decoded with
  | none => none
  | some (events, statusText) =>
    some
      { id := "dhl_" ++ tracking_number,
        tracking_number := tracking_number,
        carrier := .dhl,
        carrier_detected := true,
        status := parse_status statusText,
        events := sortEventsDesc events,
        last_updated := now,
        created_at := now }

/-- Modelled from the spec: credential-gated track with mock fallback. -/
def track (api_key : Option String) (http_status : Nat)
    (decoded : Option (List TrackingEvent × String))
    (tracking_number : String) (now : Nat) : Option Package :=
  match api_key with
  | none => some (mock_track tracking_number now)
  | some _ =>
    if http_status ≠ 200 then none
    else parse_response decoded tracking_number now

end DHLCarrier

namespace AmazonCarrier

/-- Modelled from the spec: without credentials, `track` must return a
clearly-labeled synthetic Package with a fixed representative status and
one event. -/
def mock_track (tracking_number : String) (now : Nat) : Package :=
  { id := "amazon_" ++ tracking_number,
    tracking_number := tracking_number,
    carrier := .amazon,
    carrier_detected := true,
    status := .out_for_delivery,
    events :=
      [{ timestamp := now,
         status := "Out for Delivery",
         location := some "Delivery Station",
         description := "Package is out for delivery",
         raw_status := some "outForDelivery" }],
    last_updated := now,
    created_at := now }

/-- Modelled from the spec: parse the decoded document into a Package
with events sorted descending by timestamp; parse failure gives `None`. -/
def parse_response (decoded : Option (List TrackingEvent × String))
    (tracking_number : String) (now : Nat) : Option Package :=
  match decoded with
  | none => none
  | some (events, statusText) =>
    some
      { id := "amazon_" ++ tracking_number,
        tracking_number := tracking_number,
        carrier := .amazon,
        carrier_detected := true,
        status := parse_status statusText,
        events := sortEventsDesc events,
        last_updated := now,
        created_at := now }

/-- Modelled from the spec: credential-gated track with mock fallback. -/
def track (api_key : Option String) (http_status : Nat)
    (decoded : Option (List TrackingEvent × String))
    (tracking_number : String) (now : Nat) : Option Package :=
  match api_key with
  | none => some (mock_track tracking_number now)
  | some _ =>
    if http_status ≠ 200 then none
    else parse_response decoded tracking_number now

end AmazonCarrier

/-- One entry of the module-level `TTLCache(maxsize=1000, ttl=300)` of
`tracker.py`: the stored Package together with its insertion instant.
An entry is live while `now < inserted + 300`. -/
structure CacheEntry where
  key : String
  package : Package
  inserted : Nat
deriving DecidableEq, Repr

/-- The TTL cache state, most recently inserted first. -/
abbrev Cache := List CacheEntry

/-- The cache TTL in seconds (`ttl=300` in `tracker.py`). -/
def cacheTTL : Nat := 300

/-- The cache capacity (`maxsize=1000` in `tracker.py`). -/
def cacheMaxsize : Nat := 1000

/-- TTL cache lookup (`cache_key in self.cache` / `self.cache[cache_key]`):
an entry is returned only while unexpired; expired entries are treated
as absent. -/
def cacheGet (c : Cache) (key : String) (now : Nat) : Option Package :=
  match c.find? (fun e => e.key = key) with
  | some e => if now < e.inserted + cacheTTL then some e.package else none
  | none => none

/-- TTL cache store (`self.cache[cache_key] = package`): unconditional
overwrite; at capacity the least-recently-inserted entry is dropped. -/
def cachePut (c : Cache) (key : String) (p : Package) (now : Nat) : Cache :=
  (({ key := key, package := p, inserted := now } : CacheEntry)
    :: c.filter (fun e => e.key ≠ key)).take cacheMaxsize

/-- The oracle standing for `await carrier_instance.track(tracking_number)`
inside `PackageTracker.track_package`: for the resolved carrier and the
tracking number it either raises (`Except.error` with the exception
message) or returns `Optional[Package]`. -/
abbrev TrackOracle := CarrierType → String → Except String (Option Package)

/-- Outcome of one `track_package` call: the `TrackingResponse`, the
cache state after the call, and instrumentation recording whether the
detector (`detect_carrier`) and the adapter (`carrier_instance.track`)
were invoked during the call. -/
structure TrackOutcome where
  response : TrackingResponse
  cache : Cache
  detector_called : Bool
  adapter_called : Bool
deriving Repr

/-- The cache key `f"{carrier.value if carrier else 'auto'}_{tracking_number}"`. -/
def cacheKey (carrier : Option CarrierType) (tracking_number : String) : String :=
  (match carrier with
   | some c => c.value
   | none => "auto") ++ "_" ++ tracking_number

/-- `PackageTracker.track_package` from `tracker.py`, state-passing over
the cache with the current instant `now`. -/
def track_package (oracle : TrackOracle) (cache : Cache) (now : Nat)
    (tracking_number : String) (carrier : Option CarrierType) : TrackOutcome :=
  let key := cacheKey carrier tracking_number
  match cacheGet cache key now with
  | some cached =>
    { response := { success := true, package := some cached, cached := true },
      cache := cache, detector_called := false, adapter_called := false }
  | none =>
    let resolved : CarrierType × Bool :=
      match carrier with
      | some c => (c, false)
      | none => (detect_carrier tracking_number, true)
    let detected_carrier := resolved.1
    let carrier_detected := resolved.2
    if detected_carrier = .unknown then
      { response :=
          { success := false,
            error := some "Could not detect carrier from tracking number. Please specify manually." },
        cache := cache, detector_called := carrier_detected, adapter_called := false }
    else
      match get_carrier detected_carrier with
      | none =>
        { response :=
            { success := false,
              error := some ("Carrier " ++ detected_carrier.value ++ " not supported") },
          cache := cache, detector_called := carrier_detected, adapter_called := false }
      | some _ =>
        match oracle detected_carrier tracking_number with
        | .error e =>
          { response := { success := false, error := some ("Tracking failed: " ++ e) },
            cache := cache, detector_called := carrier_detected, adapter_called := true }
        | .ok none =>
          { response := { success := false, error := some "Unable to retrieve tracking information" },
            cache := cache, detector_called := carrier_detected, adapter_called := true }
        | .ok (some package) =>
          let package := { package with carrier_detected := carrier_detected }
          { response := { success := true, package := some package },
            cache := cachePut cache key package now,
            detector_called := carrier_detected, adapter_called := true }

/-- `PackageTracker.track_multiple` from `tracker.py`:
`asyncio.gather` over one `track_package(tn)` per input, results in
input order; the shared cache is threaded through the items. -/
def track_multiple (oracle : TrackOracle) (cache : Cache) (now : Nat)
    (tracking_numbers : List String) : List TrackingResponse × Cache :=
  match tracking_numbers with
  | [] => ([], cache)
  | tn :: rest =>
    let out := track_package oracle cache now tn none
    let tail := track_multiple oracle out.cache now rest
    (out.response :: tail.1, tail.2)

theorem sortedDescB_insertDesc (e : TrackingEvent) (l : List TrackingEvent)
    (h : sortedDescB l = true) : sortedDescB (insertDesc e l) = true := by
  induction l with
  | nil => simp [insertDesc, sortedDescB]
  | cons x xs ih =>
    simp only [insertDesc]
    split
    · rename_i hle
      cases xs with
      | nil => simp [insertDesc, sortedDescB, hle]
      | cons y ys =>
        have hx : y.timestamp ≤ x.timestamp ∧ sortedDescB (y :: ys) = true := by
          simpa [sortedDescB, Bool.and_eq_true] using h
        have hrec := ih hx.2
        simp only [insertDesc] at hrec ⊢
        split
        · rename_i hley
          rw [if_pos hley] at hrec
          simpa [sortedDescB, hx.1] using hrec
        · rename_i hgty
          have hyx : y.timestamp ≤ e.timestamp := Nat.le_of_not_le hgty
          simp [sortedDescB, hle, hyx, hx.2]
    · rename_i hgt
      have hxe : x.timestamp ≤ e.timestamp := Nat.le_of_not_le hgt
      simp [sortedDescB, hxe, h]

theorem sortedDescB_sortEventsDesc (l : List TrackingEvent) :
    sortedDescB (sortEventsDesc l) = true := by
  induction l with
  | nil => rfl
  | cons e es ih => simpa [sortEventsDesc] using sortedDescB_insertDesc e _ ih

theorem track_package_miss_success (oracle : TrackOracle) (cache : Cache) (now : Nat)
    (tn : String) (carrier : Option CarrierType)
    (hmiss : cacheGet cache (cacheKey carrier tn) now = none)
    (h1 : (track_package oracle cache now tn carrier).response.success = true) :
    ∃ p, (track_package oracle cache now tn carrier).response.package = some p ∧
      (track_package oracle cache now tn carrier).response.cached = false ∧
      (track_package oracle cache now tn carrier).cache = cachePut cache (cacheKey carrier tn) p now := by
  revert h1
  unfold track_package
  dsimp only
  rw [hmiss]
  dsimp only
  repeat' split
  all_goals intro h1
  all_goals simp_all

theorem validateOf_usps (tn : String) :
    validateOf .usps tn = uspsCarrier.validate_tracking_number tn := rfl

theorem validateOf_ups (tn : String) :
    validateOf .ups tn = upsCarrier.validate_tracking_number tn := rfl

theorem validateOf_fedex (tn : String) :
    validateOf .fedex tn = fedexCarrier.validate_tracking_number tn := rfl

theorem validateOf_dhl (tn : String) :
    validateOf .dhl tn = dhlCarrier.validate_tracking_number tn := rfl

theorem validateOf_amazon (tn : String) :
    validateOf .amazon tn = amazonCarrier.validate_tracking_number tn := rfl

theorem detect_carrier_eq (tn : String) :
    detect_carrier tn =
      (if uspsCarrier.validate_tracking_number tn then .usps
       else if upsCarrier.validate_tracking_number tn then .ups
       else if fedexCarrier.validate_tracking_number tn then .fedex
       else if dhlCarrier.validate_tracking_number tn then .dhl
       else if amazonCarrier.validate_tracking_number tn then .amazon
       else .unknown) := by
  unfold detect_carrier CARRIERS
  cases hu : uspsCarrier.validate_tracking_number tn <;>
    cases hp : upsCarrier.validate_tracking_number tn <;>
      cases hf : fedexCarrier.validate_tracking_number tn <;>
        cases hd : dhlCarrier.validate_tracking_number tn <;>
          cases ha : amazonCarrier.validate_tracking_number tn <;>
            simp [List.find?, hu, hp, hf, hd, ha]

set_option maxHeartbeats 1000000 in
theorem detect_carrier_cases (tn : String) :
    (detect_carrier tn = .unknown ↔ ∀ ct ∈ registrationOrder, validateOf ct tn = false) ∧
    (∀ ct ∈ registrationOrder,
      (detect_carrier tn = ct ↔
        (validateOf ct tn = true ∧
         ∀ ct2 ∈ registrationOrder, orderIndex ct2 < orderIndex ct → validateOf ct2 tn = false))) := by
  have he := detect_carrier_eq tn
  cases hu : uspsCarrier.validate_tracking_number tn <;>
    cases hp : upsCarrier.validate_tracking_number tn <;>
      cases hf : fedexCarrier.validate_tracking_number tn <;>
        cases hd : dhlCarrier.validate_tracking_number tn <;>
          cases ha : amazonCarrier.validate_tracking_number tn <;>
            simp_all [registrationOrder, validateOf_usps, validateOf_ups,
              validateOf_fedex, validateOf_dhl, validateOf_amazon, orderIndex]

theorem track_multiple_length (oracle : TrackOracle) (cache : Cache) (now : Nat)
    (tns : List String) :
    (track_multiple oracle cache now tns).1.length = tns.length := by
  induction tns generalizing cache with
  | nil => rfl
  | cons tn rest ih => simp [track_multiple, ih]

theorem track_multiple_append (oracle : TrackOracle) (cache : Cache) (now : Nat)
    (xs ys : List String) :
    track_multiple oracle cache now (xs ++ ys) =
      ((track_multiple oracle cache now xs).1
        ++ (track_multiple oracle (track_multiple oracle cache now xs).2 now ys).1,
       (track_multiple oracle (track_multiple oracle cache now xs).2 now ys).2) := by
  induction xs generalizing cache with
  | nil => simp [track_multiple]
  | cons tn rest ih => simp [track_multiple, ih]

theorem track_package_fail_cache_eq (oracle : TrackOracle) (cache : Cache) (now : Nat)
    (tn : String) (carrier : Option CarrierType)
    (h : (track_package oracle cache now tn carrier).response.success = false) :
    (track_package oracle cache now tn carrier).cache = cache := by
  revert h
  unfold track_package
  dsimp only
  repeat' split
  all_goals intro h
  all_goals first
    | rfl
    | simp_all

theorem cachePut_cons (c : Cache) (key : String) (p : Package) (t : Nat) :
    cachePut c key p t =
      ({ key := key, package := p, inserted := t } : CacheEntry)
        :: ((c.filter (fun e => e.key ≠ key)).take 999) := by
  rfl

theorem cacheGet_cachePut (c : Cache) (key : String) (p : Package) (t t1 : Nat)
    (h : t1 < t + cacheTTL) :
    cacheGet (cachePut c key p t) key t1 = some p := by
  rw [cachePut_cons]
  simp [cacheGet, List.find?, h]

/-- C1: carrier detection is first-match over the fixed order USPS, UPS,
FEDEX, DHL, AMAZON: a registered carrier is detected exactly when its
validator accepts and every earlier validator rejects, UNKNOWN is
returned exactly when every registered validator rejects, and the three
spec examples evaluate as stated. -/
theorem detect_carrier_first_match :
    (∀ tn : String,
      (detect_carrier tn = .unknown ↔ ∀ ct ∈ registrationOrder, validateOf ct tn = false) ∧
      (∀ ct ∈ registrationOrder,
        (detect_carrier tn = ct ↔
          (validateOf ct tn = true ∧
           ∀ ct2 ∈ registrationOrder, orderIndex ct2 < orderIndex ct → validateOf ct2 tn = false)))) ∧
    detect_carrier "1Z999AA10123456784" = .ups ∧
    detect_carrier "9400111899223197428431" = .usps ∧
    detect_carrier "not-a-real-number" = .unknown :=
  ⟨detect_carrier_cases, by decide, by decide, by decide⟩

/-- C1 witness: the detection property instantiated at the spec's UPS
example. -/
theorem detect_carrier_first_match_witness :
    detect_carrier "1Z999AA10123456784" = .ups ∧
    validateOf .ups "1Z999AA10123456784" = true ∧
    validateOf .usps "1Z999AA10123456784" = false :=
  ⟨detect_carrier_first_match.2.1,
   (((detect_carrier_first_match.1 "1Z999AA10123456784").2 .ups (by decide)).mp
     detect_carrier_first_match.2.1).1,
   (((detect_carrier_first_match.1 "1Z999AA10123456784").2 .ups (by decide)).mp
     detect_carrier_first_match.2.1).2 .usps (by decide) (by decide)⟩

theorem track_package_hit (oracle : TrackOracle) (cache : Cache) (now : Nat)
    (tn : String) (carrier : Option CarrierType) (p : Package)
    (hget : cacheGet cache (cacheKey carrier tn) now = some p) :
    track_package oracle cache now tn carrier =
      { response := { success := true, package := some p, error := none, cached := true },
        cache := cache, detector_called := false, adapter_called := false } := by
  unfold track_package
  dsimp only
  rw [hget]

/-- C2: cache idempotence of single tracking.  If a call misses the
cache and succeeds (such a call reports `cached = false`), then a second
call with identical arguments within the TTL window returns success with
`cached = true` and the very same Package, touching neither the detector
nor any adapter (regardless of the oracle supplied to the second call)
and leaving the cache unchanged. -/
theorem track_package_cache_idempotent (oracle1 oracle2 : TrackOracle) (cache : Cache)
    (t0 t1 : Nat) (tn : String) (carrier : Option CarrierType)
    (hmiss : cacheGet cache (cacheKey carrier tn) t0 = none)
    (hsucc : (track_package oracle1 cache t0 tn carrier).response.success = true)
    (ht : t1 < t0 + cacheTTL) :
    (track_package oracle1 cache t0 tn carrier).response.cached = false ∧
    (track_package oracle2 (track_package oracle1 cache t0 tn carrier).cache t1 tn carrier).response.success = true ∧
    (track_package oracle2 (track_package oracle1 cache t0 tn carrier).cache t1 tn carrier).response.cached = true ∧
    (track_package oracle2 (track_package oracle1 cache t0 tn carrier).cache t1 tn carrier).response.package =
      (track_package oracle1 cache t0 tn carrier).response.package ∧
    (track_package oracle2 (track_package oracle1 cache t0 tn carrier).cache t1 tn carrier).detector_called = false ∧
    (track_package oracle2 (track_package oracle1 cache t0 tn carrier).cache t1 tn carrier).adapter_called = false := by
  obtain ⟨p, hp, hcflag, hc⟩ := track_package_miss_success oracle1 cache t0 tn carrier hmiss hsucc
  have hget : cacheGet (track_package oracle1 cache t0 tn carrier).cache (cacheKey carrier tn) t1 = some p := by
    rw [hc]
    exact cacheGet_cachePut cache (cacheKey carrier tn) p t0 t1 ht
  have hhit := track_package_hit oracle2 (track_package oracle1 cache t0 tn carrier).cache t1 tn carrier p hget
  rw [hhit, hp]
  exact ⟨hcflag, rfl, rfl, rfl, rfl, rfl⟩

/-- C3: batch isolation and ordering.  `track_multiple` returns exactly
one response per input in input order; a failing item occupies its own
input position while every other item receives exactly the response it
receives in the batch with the failing item removed. -/
theorem track_multiple_isolation (oracle : TrackOracle) (cache : Cache) (now : Nat)
    (l1 : List String) (bad : String) (l2 : List String)
    (hfail : (track_package oracle (track_multiple oracle cache now l1).2 now bad none).response.success = false) :
    (∀ tns : List String, (track_multiple oracle cache now tns).1.length = tns.length) ∧
    (track_multiple oracle cache now (l1 ++ bad :: l2)).1 =
      (track_multiple oracle cache now l1).1
        ++ (track_package oracle (track_multiple oracle cache now l1).2 now bad none).response
          :: (track_multiple oracle (track_multiple oracle cache now l1).2 now l2).1 ∧
    (track_multiple oracle cache now (l1 ++ l2)).1 =
      (track_multiple oracle cache now l1).1
        ++ (track_multiple oracle (track_multiple oracle cache now l1).2 now l2).1 := by
  refine ⟨fun tns => track_multiple_length oracle cache now tns, ?_, ?_⟩
  · rw [track_multiple_append]
    have hbad : track_multiple oracle (track_multiple oracle cache now l1).2 now (bad :: l2)
        = ((track_package oracle (track_multiple oracle cache now l1).2 now bad none).response
            :: (track_multiple oracle (track_package oracle (track_multiple oracle cache now l1).2 now bad none).cache now l2).1,
           (track_multiple oracle (track_package oracle (track_multiple oracle cache now l1).2 now bad none).cache now l2).2) := rfl
    rw [hbad, track_package_fail_cache_eq _ _ _ _ _ hfail]
  · rw [track_multiple_append]

/-- C3 witness: the isolation property at the spec's batch example
shape: a valid USPS number, an undetectable string, a valid FedEx
number, with an oracle that reports no shipment found. -/
theorem track_multiple_isolation_witness :
    (track_multiple (fun _ _ => Except.ok none) [] 0
        ["9400111899223197428431", "not-a-real-number", "123456789012"]).1 =
      (track_multiple (fun _ _ => Except.ok none) [] 0 ["9400111899223197428431"]).1
        ++ (track_package (fun _ _ => Except.ok none)
              (track_multiple (fun _ _ => Except.ok none) [] 0 ["9400111899223197428431"]).2 0
              "not-a-real-number" none).response
          :: (track_multiple (fun _ _ => Except.ok none)
                (track_multiple (fun _ _ => Except.ok none) [] 0 ["9400111899223197428431"]).2 0
                ["123456789012"]).1 ∧
    (track_multiple (fun _ _ => Except.ok none) [] 0
        ["9400111899223197428431", "not-a-real-number", "123456789012"]).1.length = 3 :=
  ⟨(track_multiple_isolation (fun _ _ => Except.ok none) [] 0
      ["9400111899223197428431"] "not-a-real-number" ["123456789012"] (by decide)).2.1,
   by
    have h := (track_multiple_isolation (fun _ _ => Except.ok none) [] 0
      ["9400111899223197428431"] "not-a-real-number" ["123456789012"] (by decide)).1
        ["9400111899223197428431", "not-a-real-number", "123456789012"]
    simpa using h⟩

/-- C6: exception containment.  When the adapter oracle raises (for any
carrier and tracking number), any call of `track_package` that reaches
the adapter returns a structured failure whose error wraps the exception
message behind the literal "Tracking failed: "; the model itself is a
total function, so no exception ever escapes to the caller. -/
theorem track_package_contains_exceptions (oracle : TrackOracle) (e : String)
    (cache : Cache) (now : Nat) (tn : String) (carrier : Option CarrierType)
    (hraise : ∀ ct s, oracle ct s = Except.error e)
    (hcall : (track_package oracle cache now tn carrier).adapter_called = true) :
    (track_package oracle cache now tn carrier).response.success = false ∧
    (track_package oracle cache now tn carrier).response.package = none ∧
    (track_package oracle cache now tn carrier).response.error =
      some ("Tracking failed: " ++ e) := by
  revert hcall
  unfold track_package
  dsimp only
  repeat' split
  all_goals intro hcall
  all_goals simp_all [hraise]

/-- C6 witness: a raising oracle on a cache-missing UPS number yields
the wrapped failure, not an exception. -/
theorem track_package_contains_exceptions_witness :
    (track_package (fun _ _ => Except.error "boom") [] 0 "1Z999AA10123456784" none).adapter_called = true ∧
    (track_package (fun _ _ => Except.error "boom") [] 0 "1Z999AA10123456784" none).response.success = false ∧
    (track_package (fun _ _ => Except.error "boom") [] 0 "1Z999AA10123456784" none).response.error =
      some "Tracking failed: boom" :=
  ⟨by decide,
   (track_package_contains_exceptions (fun _ _ => Except.error "boom") "boom" [] 0
      "1Z999AA10123456784" none (fun _ _ => rfl) (by decide)).1,
   (track_package_contains_exceptions (fun _ _ => Except.error "boom") "boom" [] 0
      "1Z999AA10123456784" none (fun _ _ => rfl) (by decide)).2.2⟩

/-- C7: detection failure.  On a cache miss, a call without an explicit
carrier for a tracking number that no registered carrier validates
returns a structured failure (no package) whose error message instructs
the caller to specify the carrier manually, and it leaves the cache
unchanged. -/
theorem track_package_detection_failure (oracle : TrackOracle) (cache : Cache)
    (now : Nat) (tn : String)
    (hdetect : detect_carrier tn = .unknown)
    (hmiss : cacheGet cache (cacheKey none tn) now = none) :
    (track_package oracle cache now tn none).response.success = false ∧
    (track_package oracle cache now tn none).response.package = none ∧
    (track_package oracle cache now tn none).response.error =
      some "Could not detect carrier from tracking number. Please specify manually." ∧
    (track_package oracle cache now tn none).cache = cache := by
  unfold track_package
  dsimp only
  rw [hmiss]
  dsimp only
  rw [hdetect]
  simp

/-- C7 witness: the spec's undetectable example on an empty cache. -/
theorem track_package_detection_failure_witness :
    detect_carrier "not-a-real-number" = .unknown ∧
    (track_package (fun _ _ => Except.ok none) [] 0 "not-a-real-number" none).response.success = false ∧
    (track_package (fun _ _ => Except.ok none) [] 0 "not-a-real-number" none).response.error =
      some "Could not detect carrier from tracking number. Please specify manually." :=
  ⟨by decide,
   (track_package_detection_failure (fun _ _ => Except.ok none) [] 0 "not-a-real-number"
      (by decide) (by decide)).1,
   (track_package_detection_failure (fun _ _ => Except.ok none) [] 0 "not-a-real-number"
      (by decide) (by decide)).2.2.1⟩

/-- C10: failure atomicity of the cache.  Any `track_package` call that
returns an unsuccessful response leaves the cache exactly as it was:
the cache is written only on the success path. -/
theorem track_package_failure_atomic (oracle : TrackOracle) (cache : Cache)
    (now : Nat) (tn : String) (carrier : Option CarrierType)
    (h : (track_package oracle cache now tn carrier).response.success = false) :
    (track_package oracle cache now tn carrier).cache = cache :=
  track_package_fail_cache_eq oracle cache now tn carrier h

/-- C10 witness: a failing detection call on a one-entry cache leaves
that cache intact. -/
theorem track_package_failure_atomic_witness :
    (track_package (fun _ _ => Except.ok none)
        [{ key := "auto_x", package := USPSCarrier.mock_track "x" 0, inserted := 0 }] 5
        "not-a-real-number" none).response.success = false ∧
    (track_package (fun _ _ => Except.ok none)
        [{ key := "auto_x", package := USPSCarrier.mock_track "x" 0, inserted := 0 }] 5
        "not-a-real-number" none).cache =
      [{ key := "auto_x", package := USPSCarrier.mock_track "x" 0, inserted := 0 }] :=
  ⟨by decide,
   track_package_failure_atomic (fun _ _ => Except.ok none)
     [{ key := "auto_x", package := USPSCarrier.mock_track "x" 0, inserted := 0 }] 5
     "not-a-real-number" none (by decide)⟩

/-- C2 witness: concrete two-call run on an empty cache with the USPS
mock as the first oracle and a failing oracle for the second call. -/
theorem track_package_cache_idempotent_witness :
    (track_package (fun _ _ => Except.error "down")
        (track_package (fun _ s => Except.ok (some (USPSCarrier.mock_track s 0))) [] 0
          "9400111899223197428431" none).cache
        10 "9400111899223197428431" none).response.cached = true ∧
    (track_package (fun _ _ => Except.error "down")
        (track_package (fun _ s => Except.ok (some (USPSCarrier.mock_track s 0))) [] 0
          "9400111899223197428431" none).cache
        10 "9400111899223197428431" none).response.package =
      (track_package (fun _ s => Except.ok (some (USPSCarrier.mock_track s 0))) [] 0
        "9400111899223197428431" none).response.package :=
  ⟨(track_package_cache_idempotent (fun _ s => Except.ok (some (USPSCarrier.mock_track s 0)))
      (fun _ _ => Except.error "down") [] 0 10 "9400111899223197428431" none
      (by decide) (by decide) (by decide)).2.2.1,
   (track_package_cache_idempotent (fun _ s => Except.ok (some (USPSCarrier.mock_track s 0)))
      (fun _ _ => Except.error "down") [] 0 10 "9400111899223197428431" none
      (by decide) (by decide) (by decide)).2.2.2.1⟩

/-- C4 counterexample: `UPSCarrier.parse_status` is not
space-insensitive: "in transit" and "intransit" differ only by a space
(their space-stripped forms coincide) yet map to different statuses. -/
theorem parse_status_space_counterexample :
    removeChar ' ' "in transit" = removeChar ' ' "intransit" ∧
    UPSCarrier.parse_status "intransit" = .in_transit ∧
    UPSCarrier.parse_status "in transit" = .unknown := by
  refine ⟨by decide, by decide, by decide⟩

/-- C4 amended: every registered adapter's `parse_status` is a pure
total lookup, case-insensitive (inputs equal after lowercasing map to
the same status), defaulting to UNKNOWN whenever the normalized key is
not in the vocabulary table; spaces however are not ignored: USPS and
FedEx turn them into underscores (so "Pre Transit" maps while
"pretransit" does not) and UPS leaves them in place. -/
theorem parse_status_total_lookup :
    (∀ s t : String, pyLower s = pyLower t →
      USPSCarrier.parse_status s = USPSCarrier.parse_status t ∧
      UPSCarrier.parse_status s = UPSCarrier.parse_status t ∧
      FedExCarrier.parse_status s = FedExCarrier.parse_status t ∧
      DHLCarrier.parse_status s = DHLCarrier.parse_status t ∧
      AmazonCarrier.parse_status s = AmazonCarrier.parse_status t) ∧
    (∀ s : String,
      (USPSCarrier.status_map.find? (fun p => p.1 = spacesToUnderscores (pyLower s)) = none →
        USPSCarrier.parse_status s = .unknown) ∧
      (UPSCarrier.status_map.find? (fun p => p.1 = pyLower s) = none →
        UPSCarrier.parse_status s = .unknown) ∧
      (FedExCarrier.status_map.find? (fun p => p.1 = spacesToUnderscores (pyLower s)) = none →
        FedExCarrier.parse_status s = .unknown) ∧
      (DHLCarrier.status_map.find? (fun p => p.1 = removeChar ' ' (pyLower s)) = none →
        DHLCarrier.parse_status s = .unknown) ∧
      (AmazonCarrier.status_map.find? (fun p => p.1 = removeChar ' ' (pyLower s)) = none →
        AmazonCarrier.parse_status s = .unknown)) ∧
    USPSCarrier.parse_status "Pre Transit" = .pre_transit ∧
    USPSCarrier.parse_status "pretransit" = .unknown ∧
    FedExCarrier.parse_status "Shipment Canceled" = .exception := by
  refine ⟨fun s t h => ?_, fun s => ?_, by decide, by decide, by decide⟩
  · unfold USPSCarrier.parse_status UPSCarrier.parse_status FedExCarrier.parse_status
      DHLCarrier.parse_status AmazonCarrier.parse_status
    rw [h]
    exact ⟨rfl, rfl, rfl, rfl, rfl⟩
  · refine ⟨fun h => ?_, fun h => ?_, fun h => ?_, fun h => ?_, fun h => ?_⟩
    · unfold USPSCarrier.parse_status
      simp [h]
    · unfold UPSCarrier.parse_status
      simp [h]
    · unfold FedExCarrier.parse_status
      simp [h]
    · unfold DHLCarrier.parse_status
      simp [h]
    · unfold AmazonCarrier.parse_status
      simp [h]

/-- C4 witness: case-insensitivity and the UNKNOWN default at concrete
inputs. -/
theorem parse_status_total_lookup_witness :
    UPSCarrier.parse_status "DELIVERED" = UPSCarrier.parse_status "delivered" ∧
    USPSCarrier.parse_status "no-such-status" = .unknown :=
  ⟨(parse_status_total_lookup.1 "DELIVERED" "delivered" (by decide)).2.1,
   (parse_status_total_lookup.2.1 "no-such-status").1 (by decide)⟩

/-- C5: event ordering invariant.  Every Package an adapter's `track`
produces — through the credentialed parsed-response path or the
no-credentials synthetic path — carries its events sorted descending by
timestamp (`events[i].timestamp >= events[i+1].timestamp`). -/
theorem adapter_events_sorted :
    (∀ (creds : Option String) (hs : Nat) (doc : Option (List TrackingEvent × String))
        (tn : String) (now : Nat),
      Option.all (fun p => sortedDescB p.events) (USPSCarrier.track creds hs doc tn now) = true) ∧
    (∀ (creds : Option String) (hs : Nat) (doc : Option (List TrackingEvent × String))
        (tn : String) (now : Nat),
      Option.all (fun p => sortedDescB p.events) (UPSCarrier.track creds hs doc tn now) = true) ∧
    (∀ (creds : Option String) (hs : Nat) (doc : Option (List TrackingEvent × String))
        (tn : String) (now : Nat),
      Option.all (fun p => sortedDescB p.events) (FedExCarrier.track creds hs doc tn now) = true) ∧
    (∀ (creds : Option String) (hs : Nat) (doc : Option (List TrackingEvent × String))
        (tn : String) (now : Nat),
      Option.all (fun p => sortedDescB p.events) (DHLCarrier.track creds hs doc tn now) = true) ∧
    (∀ (creds : Option String) (hs : Nat) (doc : Option (List TrackingEvent × String))
        (tn : String) (now : Nat),
      Option.all (fun p => sortedDescB p.events) (AmazonCarrier.track creds hs doc tn now) = true) := by
  refine ⟨?_, ?_, ?_, ?_, ?_⟩
  · intro creds hs doc tn now
    unfold USPSCarrier.track
    cases creds with
    | none => rfl
    | some c =>
      dsimp only
      split
      · rfl
      · unfold USPSCarrier.parse_response
        cases doc with
        | none => rfl
        | some pr => simp [Option.all, sortedDescB_sortEventsDesc]
  · intro creds hs doc tn now
    unfold UPSCarrier.track
    cases creds with
    | none => rfl
    | some c =>
      dsimp only
      split
      · rfl
      · unfold UPSCarrier.parse_response
        cases doc with
        | none => rfl
        | some pr => simp [Option.all, sortedDescB_sortEventsDesc]
  · intro creds hs doc tn now
    unfold FedExCarrier.track
    cases creds with
    | none => rfl
    | some c =>
      dsimp only
      split
      · rfl
      · unfold FedExCarrier.parse_response
        cases doc with
        | none => rfl
        | some pr => simp [Option.all, sortedDescB_sortEventsDesc]
  · intro creds hs doc tn now
    unfold DHLCarrier.track
    cases creds with
    | none => rfl
    | some c =>
      dsimp only
      split
      · rfl
      · unfold DHLCarrier.parse_response
        cases doc with
        | none => rfl
        | some pr => simp [Option.all, sortedDescB_sortEventsDesc]
  · intro creds hs doc tn now
    unfold AmazonCarrier.track
    cases creds with
    | none => rfl
    | some c =>
      dsimp only
      split
      · rfl
      · unfold AmazonCarrier.parse_response
        cases doc with
        | none => rfl
        | some pr => simp [Option.all, sortedDescB_sortEventsDesc]

/-- C8 counterexample: ONTRAC is a CarrierType value other than UNKNOWN
for which `get_carrier` returns null, refuting registry completeness as
claimed. -/
theorem get_carrier_ontrac_counterexample :
    CarrierType.ontrac ≠ CarrierType.unknown ∧ get_carrier .ontrac = none :=
  ⟨by decide, rfl⟩

/-- C8 amended: the registry holds one adapter instance for each of
USPS, UPS, FEDEX, DHL and AMAZON, and `get_carrier` returns a non-null
adapter exactly for those five values; it returns null for ONTRAC and
LASERSHIP — non-UNKNOWN values absent from the registry — and for
UNKNOWN. -/
theorem get_carrier_registry :
    (get_carrier .usps).isSome = true ∧
    (get_carrier .ups).isSome = true ∧
    (get_carrier .fedex).isSome = true ∧
    (get_carrier .dhl).isSome = true ∧
    (get_carrier .amazon).isSome = true ∧
    (get_carrier .ontrac).isSome = false ∧
    (get_carrier .lasership).isSome = false ∧
    (get_carrier .unknown).isSome = false :=
  ⟨rfl, rfl, rfl, rfl, rfl, rfl, rfl, rfl⟩

/-- C9: no-credential fallback.  For every registered adapter with its
credential environment variable absent, `track` returns (never null,
never raising) the adapter's synthetic demo Package, which has the
adapter's fixed representative status and exactly one event. -/
theorem no_credential_fallback :
    ∀ (hs : Nat) (doc : Option (List TrackingEvent × String)) (tn : String) (now : Nat),
      (USPSCarrier.track none hs doc tn now = some (USPSCarrier.mock_track tn now) ∧
       (USPSCarrier.mock_track tn now).status = .in_transit ∧
       (USPSCarrier.mock_track tn now).events.length = 1) ∧
      (UPSCarrier.track none hs doc tn now = some (UPSCarrier.mock_track tn now) ∧
       (UPSCarrier.mock_track tn now).status = .out_for_delivery ∧
       (UPSCarrier.mock_track tn now).events.length = 1) ∧
      (FedExCarrier.track none hs doc tn now = some (FedExCarrier.mock_track tn now) ∧
       (FedExCarrier.mock_track tn now).status = .delivered ∧
       (FedExCarrier.mock_track tn now).events.length = 1) ∧
      (DHLCarrier.track none hs doc tn now = some (DHLCarrier.mock_track tn now) ∧
       (DHLCarrier.mock_track tn now).status = .in_transit ∧
       (DHLCarrier.mock_track tn now).events.length = 1) ∧
      (AmazonCarrier.track none hs doc tn now = some (AmazonCarrier.mock_track tn now) ∧
       (AmazonCarrier.mock_track tn now).status = .out_for_delivery ∧
       (AmazonCarrier.mock_track tn now).events.length = 1) :=
  fun _ _ _ _ =>
    ⟨⟨rfl, rfl, rfl⟩, ⟨rfl, rfl, rfl⟩, ⟨rfl, rfl, rfl⟩, ⟨rfl, rfl, rfl⟩, ⟨rfl, rfl, rfl⟩⟩
